import Mathlib

/-!
Verification of the Trinity scoring engine (`trinity_engine_v2.py`) and its
24-hour aggregation wrapper (`get_deep_luck` in `api_server.py`).

Modelling conventions:
* Heavenly stems and earthly branches are represented by their indices
  (`Fin 10` / `Fin 12`) into the fixed `HEAVENLY_STEMS` / `EARTHLY_BRANCHES`
  tables of the source.  The Korean and Hanja symbol tables share indices, and
  the element lookup tables agree index-wise (including the single overlapping
  Korean symbol, stem index 7 and branch index 8, which both map to Metal), so
  `get_element` on a stem/branch character is modelled by `stemElement` /
  `branchElement` on the index.
* Python floats are modelled by `ℚ`.  Every float produced by the engine is a
  sum/product of small decimal literals; the engine only compares and rounds
  them, at a granularity far above double-precision error, so the rational
  model is behaviour-equivalent.  `round` is Python's round-half-to-even,
  modelled by `pyRound`.
* Python `%` on a positive divisor is `Int.emod`, Python `//` is `Int.fdiv`.
* The validation layer is modelled character-exactly against CPython 3.11:
  `strptime("%Y-%m-%d")` compiles to an anchored regex whose `%Y` is exactly
  four decimal digits, `%m` is the ASCII pattern `1[0-2]|0[1-9]|[1-9]`, and
  `%d` is `3[0-1]|[1-2]\d|0[1-9]|[1-9]| [1-9]` (a `\d` matches any Unicode
  Nd digit; a single space may pad a one-digit day); `int` strips Python's
  whitespace set and accepts one ASCII sign, Unicode Nd digits, and single
  PEP 515 underscores between digits.  The digit and whitespace tables are
  taken from CPython's own Unicode data.
* Exceptions are modelled by `Except String`; the message strings mirror the
  source's messages (without Python's exception-chaining detail).
-/

namespace Gridcore

/-- The five elements (五行), in the insertion order of the Python tally dict
`{"木","火","土","金","水"}`. -/
inductive Element
  | wood | fire | earth | metal | water
deriving DecidableEq, Fintype

open Element

/-- `STEM_ELEMENTS` of the source: element of the heavenly stem with the given
index (甲乙 wood, 丙丁 fire, 戊己 earth, 庚辛 metal, 壬癸 water). -/
def stemElement : Fin 10 → Element :=
  fun i => match i with
  | 0 => wood | 1 => wood
  | 2 => fire | 3 => fire
  | 4 => earth | 5 => earth
  | 6 => metal | 7 => metal
  | 8 => water | 9 => water

/-- `BRANCH_ELEMENTS` of the source: element of the earthly branch with the
given index (子0 water, 丑1 earth, 寅2 wood, 卯3 wood, 辰4 earth, 巳5 fire,
午6 fire, 未7 earth, 申8 metal, 酉9 metal, 戌10 earth, 亥11 water). -/
def branchElement : Fin 12 → Element :=
  fun i => match i with
  | 0 => water | 1 => earth
  | 2 => wood | 3 => wood
  | 4 => earth | 5 => fire
  | 6 => fire | 7 => earth
  | 8 => metal | 9 => metal
  | 10 => earth | 11 => water

/-- `CONTROL_MAP` of the source: which element the first argument controls
(木克土, 火克金, 土克水, 金克木, 水克火). -/
def control_map : Element → Element
  | wood => earth
  | fire => metal
  | earth => water
  | metal => wood
  | water => fire

/-- `controls_element` of the source. -/
def controls_element (fromElem toElem : Element) : Bool :=
  control_map fromElem == toElem

/-- `sheng_map` of `_calculate_yongsin`: the element that generates the given
one (목생화 etc.), i.e. yongsin ↦ heesin. -/
def sheng_map : Element → Element
  | wood => water
  | fire => wood
  | earth => fire
  | metal => earth
  | water => metal

/-- Index into a `Fin 10` from an integer, as Python `% 10` on a positive
divisor (always non-negative). -/
def zmod10 (n : ℤ) : Fin 10 :=
  ⟨(n.emod 10).toNat, by
    have h1 : 0 ≤ n.emod 10 := Int.emod_nonneg n (by norm_num)
    have h2 : n.emod 10 < 10 := Int.emod_lt_of_pos n (by norm_num)
    omega⟩

/-- Index into a `Fin 12` from an integer, as Python `% 12`. -/
def zmod12 (n : ℤ) : Fin 12 :=
  ⟨(n.emod 12).toNat, by
    have h1 : 0 ≤ n.emod 12 := Int.emod_nonneg n (by norm_num)
    have h2 : n.emod 12 < 12 := Int.emod_lt_of_pos n (by norm_num)
    omega⟩

/-- `GanZhi`: an ordered (heavenly-stem, earthly-branch) index pair. -/
structure GanZhi where
  gan : Fin 10
  zhi : Fin 12
deriving DecidableEq

/-- `SajuPillar`: the four pillars. -/
structure SajuPillar where
  year : GanZhi
  month : GanZhi
  day : GanZhi
  hour : GanZhi
deriving DecidableEq

/-- `YongsinData`. -/
structure YongsinData where
  yongsin : Element
  heesin : Element
  strong : Bool
deriving DecidableEq

/-- `SajuData`.  The source also stores the raw `birth_date`, `birth_time`
and `gender` strings, none of which is read by any scoring function; only the
birth year is (by `_get_current_daewoon`), so only it is kept. -/
structure SajuData where
  pillars : SajuPillar
  birthYear : ℤ
  elements : Element → ℕ
  clash_count : ℕ
  harmony_count : ℕ
  yongsin_data : YongsinData

/-- The five keyword labels of `_determine_keyword`. -/
inductive Keyword
  | STRONG_BEARISH | BEARISH | NEUTRAL | BULLISH | STRONG_BULLISH
deriving DecidableEq

/-- `TrinityScore` (the `breakdown` strings are a fixed formatting of the
numeric fields and are omitted). -/
structure TrinityScoreRec where
  total_score : ℤ
  daewoon_score : ℚ
  seun_score : ℚ
  interaction_score : ℤ
  keyword : Keyword
deriving DecidableEq

/-- The dict returned by `_map_to_crypto_terms` (minus `breakdown`, a fixed
formatting of the numeric fields). -/
structure CryptoResult where
  trading_luck_score : ℚ
  favorable_sectors : List String
  volatility_index : String
  market_sentiment : String
  wealth_opportunity : String
  raw_score : ℤ
  keyword : Keyword
deriving DecidableEq

/-- A parsed Gregorian date. -/
structure YMD where
  y : ℕ
  m : ℕ
  d : ℕ
deriving DecidableEq

/-- Gregorian leap-year rule used by `datetime`. -/
def isLeapYear (y : ℕ) : Bool :=
  y % 4 == 0 && (y % 100 != 0 || y % 400 == 0)

/-- Days in a month, per `datetime`. -/
def daysInMonth (y m : ℕ) : ℕ :=
  if m == 2 then (if isLeapYear y then 29 else 28)
  else if m == 4 || m == 6 || m == 9 || m == 11 then 30
  else 31

/-- Python `s.split(sep)` for a single-character separator, on the character
list of the string (`"".split(sep)` is `[""]`). -/
def splitOnChar (c : Char) : List Char → List (List Char)
  | [] => [[]]
  | a :: rest =>
    match splitOnChar c rest, decide (a = c) with
    | r, true => [] :: r
    | [], false => [[a]]
    | s :: ss, false => (a :: s) :: ss

/-- Zero code points of every run of Unicode decimal digits (category Nd),
per the tables Python's `int` and `re`'s `\d` use (CPython 3.11): each run
is the ten consecutive code points `z`…`z+9` with digit values 0…9. -/
def decimalDigitZeros : List ℕ :=
  [48, 1632, 1776, 1984, 2406, 2534, 2662, 2790, 2918, 3046, 3174, 3302,
   3430, 3558, 3664, 3792, 3872, 4160, 4240, 6112, 6160, 6470, 6608, 6784,
   6800, 6992, 7088, 7232, 7248, 42528, 43216, 43264, 43472, 43504, 43600,
   44016, 65296, 66720, 68912, 69734, 69872, 69942, 70096, 70384, 70736,
   70864, 71248, 71360, 71472, 71904, 72016, 72784, 73040, 73120, 92768,
   92864, 93008, 120782, 120792, 120802, 120812, 120822, 123200, 123632,
   125264, 130032]

/-- Value of a Unicode decimal digit (category Nd) — the characters `re`'s
`\d` matches and Python's `int` converts; `none` for every other
character. -/
def digitVal (c : Char) : Option ℕ :=
  decimalDigitZeros.findSome? (fun z =>
    if z ≤ c.toNat ∧ c.toNat ≤ z + 9 then some (c.toNat - z) else none)

/-- The characters Python's `int` strips around a numeric literal
(measured against CPython 3.11: ASCII whitespace, NEL, NBSP and the
Unicode space/line/paragraph separators; the 0x1C–0x1F separators are not
stripped). -/
def pySpaceCodes : List ℕ :=
  [9, 10, 11, 12, 13, 32, 133, 160, 5760, 8192, 8193, 8194, 8195, 8196,
   8197, 8198, 8199, 8200, 8201, 8202, 8232, 8233, 8239, 8287, 12288]

/-- Membership in `pySpaceCodes`. -/
def isPySpace (c : Char) : Bool :=
  pySpaceCodes.contains c.toNat

/-- Strip leading and trailing whitespace. -/
def trimChars (l : List Char) : List Char :=
  ((l.dropWhile isPySpace).reverse.dropWhile isPySpace).reverse

/-- Digits of an integer literal after its first digit: each further
character is a digit, or an underscore followed by a digit (PEP 515, so
`1_4` is 14 but `_4`, `4_` and `1__4` are rejected). -/
def digitsUnderscore : List Char → ℕ → Option ℕ
  | [], acc => some acc
  | '_' :: c :: rest, acc =>
    match digitVal c with
    | some d => digitsUnderscore rest (acc * 10 + d)
    | none => none
  | ['_'], _ => none
  | c :: rest, acc =>
    match digitVal c with
    | some d => digitsUnderscore rest (acc * 10 + d)
    | none => none

/-- A non-empty digit string with single underscores between digits. -/
def pyIntDigits : List Char → Option ℕ
  | [] => none
  | c :: rest =>
    match digitVal c with
    | some d => digitsUnderscore rest d
    | none => none

/-- Python `int(s)` on a string: whitespace stripped, one optional ASCII
sign, then a non-empty (Unicode-) digit string with single underscores
between digits. -/
def pyIntChars (l : List Char) : Option ℤ :=
  match trimChars l with
  | '-' :: rest => (pyIntDigits rest).map (fun n => -(n : ℤ))
  | '+' :: rest => (pyIntDigits rest).map (fun n => (n : ℤ))
  | t => (pyIntDigits t).map (fun n => (n : ℤ))

/-- Python `int(s)`. -/
def pyInt (s : String) : Option ℤ := pyIntChars s.data

/-- `strptime`'s `%Y` field, `\d\d\d\d`: exactly four decimal digits,
matched against a whole between-dash field. -/
def yearField : List Char → Option ℕ
  | [a, b, c, d] =>
    match digitVal a, digitVal b, digitVal c, digitVal d with
    | some w, some x, some y, some z => some (((w * 10 + x) * 10 + y) * 10 + z)
    | _, _, _, _ => none
  | _ => none

/-- `strptime`'s `%m` field, `1[0-2]|0[1-9]|[1-9]` (ASCII classes), matched
against a whole between-dash field. -/
def monthField : List Char → Option ℕ
  | ['1', c] => if '0' ≤ c ∧ c ≤ '2' then some (10 + (c.toNat - 48)) else none
  | ['0', c] => if '1' ≤ c ∧ c ≤ '9' then some (c.toNat - 48) else none
  | [c] => if '1' ≤ c ∧ c ≤ '9' then some (c.toNat - 48) else none
  | _ => none

/-- `strptime`'s `%d` field, `3[0-1]|[1-2]\d|0[1-9]|[1-9]| [1-9]`: the
explicit classes are ASCII, the `\d` position accepts any decimal digit,
and a single ASCII space may pad a one-digit day. -/
def dayField : List Char → Option ℕ
  | ['3', c] => if '0' ≤ c ∧ c ≤ '1' then some (30 + (c.toNat - 48)) else none
  | ['0', c] => if '1' ≤ c ∧ c ≤ '9' then some (c.toNat - 48) else none
  | [' ', c] => if '1' ≤ c ∧ c ≤ '9' then some (c.toNat - 48) else none
  | [c1, c2] =>
    if c1 = '1' ∨ c1 = '2' then
      (digitVal c2).map (fun d => 10 * (c1.toNat - 48) + d)
    else none
  | [c] => if '1' ≤ c ∧ c ≤ '9' then some (c.toNat - 48) else none
  | _ => none

/-- `datetime.strptime(s, "%Y-%m-%d")`: the format regex anchors at both
ends and no field pattern can contain `-`, so a string matches exactly when
it has three dash-separated fields matching `%Y`, `%m`, `%d` in full;
`datetime` then rejects year 0 (`MINYEAR` is 1; four digits cap the year at
9999) and a day beyond the month's length. -/
def parseDate (s : String) : Option YMD :=
  match splitOnChar '-' s.data with
  | [ys, ms, ds] =>
    match yearField ys, monthField ms, dayField ds with
    | some y, some m, some d =>
      if 1 ≤ y ∧ 1 ≤ d ∧ d ≤ daysInMonth y m then some ⟨y, m, d⟩ else none
    | _, _, _ => none
  | _ => none

/-- The hour component `_validate_inputs` extracts from `birth_time`:
`int(birth_time.split(":")[0])`, provided `":" in birth_time`. -/
def hourOf (bt : String) : Option ℤ :=
  if bt.data.contains ':' then pyIntChars ((splitOnChar ':' bt.data).headD []) else none

/-- `evaluate_element` of the source, on the element of the evaluated symbol:
+30 on the yongsin, +15 on the heesin, −20 on an element that controls the
yongsin, 0 otherwise. -/
def evaluate_element (e yongsin heesin : Element) : ℚ :=
  if e = yongsin then 30
  else if e = heesin then 15
  else if controls_element e yongsin then -20
  else 0

/-- `get_ganzi_for_year`: the sexagenary pair of a year, anchored at
2024 = (stem 0, branch 4). -/
def get_ganzi_for_year (year : ℤ) : GanZhi :=
  ⟨zmod10 (year - 2024 + 0 + 10), zmod12 (year - 2024 + 4 + 12)⟩

/-- The eight element symbols of the four pillars, in the source's iteration
order (year, month, day, hour; stem before branch). -/
def pillarElements (p : SajuPillar) : List Element :=
  [stemElement p.year.gan, branchElement p.year.zhi,
   stemElement p.month.gan, branchElement p.month.zhi,
   stemElement p.day.gan, branchElement p.day.zhi,
   stemElement p.hour.gan, branchElement p.hour.zhi]

/-- `_calculate_elements`: the five-element tally of the four pillars. -/
def _calculate_elements (p : SajuPillar) : Element → ℕ :=
  fun e => (pillarElements p).count e

/-- `CLASH_PAIRS`, as index pairs. -/
def clash_pairs : List (Fin 12 × Fin 12) :=
  [(0, 6), (1, 7), (2, 8), (3, 9), (4, 10), (5, 11)]

/-- `HARMONY_PAIRS`, as index pairs. -/
def harmony_pairs : List (Fin 12 × Fin 12) :=
  [(0, 1), (2, 11), (3, 10), (4, 9), (5, 8), (6, 7)]

/-- Membership of an unordered branch pair in a pair table. -/
def pairIn (table : List (Fin 12 × Fin 12)) (a b : Fin 12) : Bool :=
  decide ((a, b) ∈ table ∨ (b, a) ∈ table)

/-- The nested `for i ... for b2 in branches[i+1:]` loop of
`_count_clashes` / `_count_harmonies`. -/
def countPairs (table : List (Fin 12 × Fin 12)) : List (Fin 12) → ℕ
  | [] => 0
  | b :: rest => rest.countP (fun b2 => pairIn table b b2) + countPairs table rest

/-- The four branches, in pillar order. -/
def branchesOf (p : SajuPillar) : List (Fin 12) :=
  [p.year.zhi, p.month.zhi, p.day.zhi, p.hour.zhi]

/-- `_count_clashes`. -/
def _count_clashes (p : SajuPillar) : ℕ :=
  countPairs clash_pairs (branchesOf p)

/-- `_count_harmonies`. -/
def _count_harmonies (p : SajuPillar) : ℕ :=
  countPairs harmony_pairs (branchesOf p)

/-- Python `min(elements, key=elements.get)`: the first element of the tally
dict's insertion order attaining the minimal count. -/
def firstArgmin (f : Element → ℕ) : Element :=
  [fire, earth, metal, water].foldl (fun best e => if f e < f best then e else best) wood

/-- Python `max(elements, key=elements.get)`: the first element of the tally
dict's insertion order attaining the maximal count. -/
def firstArgmax (f : Element → ℕ) : Element :=
  [fire, earth, metal, water].foldl (fun best e => if f best < f e then e else best) wood

/-- `_calculate_yongsin`: the minimum-count element is the yongsin, its
generator the heesin; `strong` compares the yongsin count to a fifth of the
total. -/
def _calculate_yongsin (elems : Element → ℕ) : YongsinData :=
  let yongsin := firstArgmin elems
  let heesin := sheng_map yongsin
  let total := elems wood + elems fire + elems earth + elems metal + elems water
  let strong := if 0 < total then decide ((total : ℚ) / 5 < (elems yongsin : ℚ)) else false
  ⟨yongsin, heesin, strong⟩

/-- `_calculate_saju`: four-pillar derivation by the fixed modular formulas,
then tally, clash/harmony counts and yongsin. -/
def _calculate_saju (b : YMD) (hour : ℤ) : SajuData :=
  let year_gan := zmod10 ((b.y : ℤ) - 4)
  let year_zhi := zmod12 ((b.y : ℤ) - 4)
  let month_gan := zmod10 ((b.m : ℤ) - 1)
  let month_zhi := zmod12 ((b.m : ℤ) - 1)
  let day_gan := zmod10 ((b.d : ℤ) - 1)
  let day_zhi := zmod12 ((b.d : ℤ) - 1)
  let hour_zhi := zmod12 ((hour + 1).fdiv 2)
  let hour_gan := zmod10 ((day_gan.val : ℤ) * 2 + (hour_zhi.val : ℤ))
  let pillars : SajuPillar :=
    ⟨⟨year_gan, year_zhi⟩, ⟨month_gan, month_zhi⟩, ⟨day_gan, day_zhi⟩, ⟨hour_gan, hour_zhi⟩⟩
  { pillars := pillars
    birthYear := (b.y : ℤ)
    elements := _calculate_elements pillars
    clash_count := _count_clashes pillars
    harmony_count := _count_harmonies pillars
    yongsin_data := _calculate_yongsin (_calculate_elements pillars) }

/-- `DaewoonInfo` (the `ganZhi` display string is omitted). -/
structure DaewoonInfo where
  gan : Fin 10
  zhi : Fin 12
  start_age : ℤ
  end_age : ℤ
  start_year : ℤ
deriving DecidableEq

/-- `_get_current_daewoon`: decade-cycle pair, offset from the month pillar by
`cycle + 1` where `cycle = (age − 3) // 10` and `age = target_year −
birth_year + 1`. -/
def _get_current_daewoon (saju : SajuData) (target_year : ℤ) : DaewoonInfo :=
  let age := target_year - saju.birthYear + 1
  let start_offset : ℤ := 3
  let daewoon_cycle := (age - start_offset).fdiv 10
  let start_age := start_offset + daewoon_cycle * 10
  { gan := zmod10 ((saju.pillars.month.gan.val : ℤ) + daewoon_cycle + 1)
    zhi := zmod12 ((saju.pillars.month.zhi.val : ℤ) + daewoon_cycle + 1)
    start_age := start_age
    end_age := start_age + 10
    start_year := saju.birthYear + start_age - 1 }

/-- `_calculate_daewoon_score_v2`: stem-score×0.3 + branch-score×0.7 of the
decade-cycle pair against the yongsin/heesin.  (The source's
`if not saju.yongsin_data` guard never fires: `_calculate_saju` always sets
the field.) -/
def _calculate_daewoon_score_v2 (saju : SajuData) (target_year : ℤ) : ℚ :=
  let daewoon := _get_current_daewoon saju target_year
  let yd := saju.yongsin_data
  let gan_score := evaluate_element (stemElement daewoon.gan) yd.yongsin yd.heesin
  let ji_score := evaluate_element (branchElement daewoon.zhi) yd.yongsin yd.heesin
  gan_score * (3 / 10) + ji_score * (7 / 10)

/-- `_calculate_seun_score_v2`: the target year's own pair, same 0.3/0.7
weighting, scaled by the literal `0.67`. -/
def _calculate_seun_score_v2 (saju : SajuData) (target_year : ℤ) : ℚ :=
  let seun := get_ganzi_for_year target_year
  let yd := saju.yongsin_data
  let gan_score := evaluate_element (stemElement seun.gan) yd.yongsin yd.heesin
  let ji_score := evaluate_element (branchElement seun.zhi) yd.yongsin yd.heesin
  (gan_score * (3 / 10) + ji_score * (7 / 10)) * (67 / 100)

/-- `_calculate_interaction_score`: +5 per harmony, −5 per clash. -/
def _calculate_interaction_score (saju : SajuData) : ℤ :=
  (saju.harmony_count : ℤ) * 5 - (saju.clash_count : ℤ) * 5

/-- Python `round` on a rational: round half to even. -/
def pyRound (q : ℚ) : ℤ :=
  if q - (⌊q⌋ : ℚ) < 1 / 2 then ⌊q⌋
  else if 1 / 2 < q - (⌊q⌋ : ℚ) then ⌊q⌋ + 1
  else if ⌊q⌋ % 2 = 0 then ⌊q⌋ else ⌊q⌋ + 1

/-- Python `round(q, 2)`. -/
def roundTo2 (q : ℚ) : ℚ :=
  (pyRound (q * 100) : ℚ) / 100

/-- `_determine_keyword`: the five fixed thresholds. -/
def _determine_keyword (score : ℤ) : Keyword :=
  if 80 ≤ score then Keyword.STRONG_BULLISH
  else if 65 ≤ score then Keyword.BULLISH
  else if 45 ≤ score then Keyword.NEUTRAL
  else if 30 ≤ score then Keyword.BEARISH
  else Keyword.STRONG_BEARISH

/-- `_calculate_trinity_score_v2`: base 50 plus the three contributions,
rounded, clamped to [10, 95]. -/
def _calculate_trinity_score_v2 (saju : SajuData) (target_year : ℤ) : TrinityScoreRec :=
  let daewoon_score := _calculate_daewoon_score_v2 saju target_year
  let seun_score := _calculate_seun_score_v2 saju target_year
  let interaction_score := _calculate_interaction_score saju
  let score : ℚ := 50 + daewoon_score + seun_score + (interaction_score : ℚ)
  let final_score : ℤ := max 10 (min 95 (pyRound score))
  { total_score := final_score
    daewoon_score := daewoon_score
    seun_score := seun_score
    interaction_score := interaction_score
    keyword := _determine_keyword final_score }

/-- The `element_to_sector` table of `_map_to_crypto_terms`. -/
def element_to_sector : Element → List String
  | fire => ["MEME", "AI", "VOLATILE"]
  | earth => ["INFRASTRUCTURE", "LAYER1", "BTC"]
  | water => ["DEFI", "EXCHANGE", "LIQUIDITY"]
  | metal => ["RWA", "STABLECOIN"]
  | wood => ["NEW_LISTING", "GAMEFI", "NFT"]

/-- `_map_to_crypto_terms`. -/
def _map_to_crypto_terms (ts : TrinityScoreRec) (saju : SajuData) : CryptoResult :=
  let normalized := roundTo2 (((ts.total_score - 10 : ℤ) : ℚ) / 85)
  let dominant := firstArgmax saju.elements
  { trading_luck_score := normalized
    favorable_sectors := element_to_sector dominant
    volatility_index := if 2 < saju.clash_count then "HIGH" else "LOW"
    market_sentiment := if 1 < saju.harmony_count then "STABLE" else "VOLATILE"
    wealth_opportunity :=
      if 70 ≤ ts.total_score then "HIGH"
      else if 50 ≤ ts.total_score then "MEDIUM" else "LOW"
    raw_score := ts.total_score
    keyword := ts.keyword }

/-- The computation `calculate_daily_luck` performs once its inputs have
passed validation (only the target date's year is read). -/
def compute_result (b : YMD) (hour : ℤ) (t : YMD) : CryptoResult :=
  let saju := _calculate_saju b hour
  _map_to_crypto_terms (_calculate_trinity_score_v2 saju (t.y : ℤ)) saju

/-- `TrinityEngineV2.calculate_daily_luck`: `_validate_inputs` (same checks,
same order, messages mirroring the source) followed by the scoring pipeline.
The source validates and then re-parses the same strings; the two parses are
fused here. -/
def calculate_daily_luck (birth_date birth_time target_date gender : String) :
    Except String CryptoResult :=
  match parseDate birth_date with
  | none => Except.error ("Invalid date format (expected YYYY-MM-DD): " ++ birth_date)
  | some b =>
    match parseDate target_date with
    | none => Except.error ("Invalid date format (expected YYYY-MM-DD): " ++ target_date)
    | some t =>
      if birth_time.data.contains ':' then
        match pyIntChars ((splitOnChar ':' birth_time.data).headD []) with
        | none => Except.error ("Invalid time format: " ++ birth_time)
        | some h =>
          if 0 ≤ h ∧ h ≤ 23 then
            if gender = "M" ∨ gender = "F" then Except.ok (compute_result b h t)
            else Except.error ("Gender must be M or F: " ++ gender)
          else Except.error ("Invalid time format: " ++ birth_time)
      else Except.error ("Invalid time format (expected HH:MM): " ++ birth_time)

/-! ## The 24-hour wrapper (`get_deep_luck` of `api_server.py`) -/

/-- Python `max(scores)` on a non-empty list (the empty case never arises in
`get_deep_luck`; Python would raise there). -/
def pyMax : List ℚ → ℚ
  | [] => 0
  | x :: xs => xs.foldl max x

/-- Python `min(scores)` on a non-empty list. -/
def pyMin : List ℚ → ℚ
  | [] => 0
  | x :: xs => xs.foldl min x

/-- The `f"{h:02d}:00"` birth-time string of the hourly loop. -/
def hourString (h : ℕ) : String :=
  (if h < 10 then "0" ++ toString h else toString h) ++ ":00"

/-- The `hourly_analysis` block of the `get_deep_luck` response. -/
structure HourlyAnalysis where
  max_score : ℚ
  min_score : ℚ
  spread : ℚ
deriving DecidableEq

/-- The parts of the `get_deep_luck` response the claims are about: the 24
per-hour engine results and the max/min/spread aggregation over their
`trading_luck_score`s.  (The presentation-only fields — signals, golden
flags, strategy text — are fixed functions of these and are omitted.) -/
structure DeepLuckResult where
  hourly : List (ℕ × CryptoResult)
  analysis : HourlyAnalysis
deriving DecidableEq

/-- The `for h in range(24)` loop of `get_deep_luck`: one engine invocation
per hour, failing out on the first exception as the Python `try` block does. -/
def deepLoop (bd td g : String) : List ℕ → Except String (List (ℕ × CryptoResult))
  | [] => Except.ok []
  | h :: rest =>
    match calculate_daily_luck bd (hourString h) td g with
    | Except.error e => Except.error e
    | Except.ok res =>
      match deepLoop bd td g rest with
      | Except.error e => Except.error e
      | Except.ok tail => Except.ok ((h, res) :: tail)

/-- The aggregation `get_deep_luck` performs over the per-hour results. -/
def deepAggregate (hourly : List (ℕ × CryptoResult)) : DeepLuckResult :=
  let scores := hourly.map (fun x => x.2.trading_luck_score)
  let mx := pyMax scores
  let mn := pyMin scores
  { hourly := hourly
    analysis := { max_score := roundTo2 mx, min_score := roundTo2 mn
                  spread := roundTo2 (mx - mn) } }

/-- `get_deep_luck` of `api_server.py` (its engine-facing content). -/
def get_deep_luck (bd td g : String) : Except String DeepLuckResult :=
  match deepLoop bd td g (List.range 24) with
  | Except.error e => Except.error e
  | Except.ok hourly => Except.ok (deepAggregate hourly)

/-- What `get_deep_luck` computes on validated inputs. -/
def deepCompute (b t : YMD) : DeepLuckResult :=
  deepAggregate ((List.range 24).map (fun h => (h, compute_result b (h : ℤ) t)))

/-! ## Spec-side definitions (written from the claims' words, for
refinement comparisons) -/

/-- From C2's words: the decade-cycle pair obtained by offsetting the month
pillar's stem and branch indices by exactly the cycle number
`(target_year − birth_year + 1 − 3) div 10`. -/
def spec_daewoon_pair (saju : SajuData) (target_year : ℤ) : GanZhi :=
  let cycle := (target_year - saju.birthYear + 1 - 3).fdiv 10
  ⟨zmod10 ((saju.pillars.month.gan.val : ℤ) + cycle),
   zmod12 ((saju.pillars.month.zhi.val : ℤ) + cycle)⟩

/-- From C2's words: the decade-cycle score obtained from `spec_daewoon_pair`
with the fixed scoring rule and 0.3/0.7 weighting. -/
def spec_daewoon_score (saju : SajuData) (target_year : ℤ) : ℚ :=
  let d := spec_daewoon_pair saju target_year
  let yd := saju.yongsin_data
  evaluate_element (stemElement d.gan) yd.yongsin yd.heesin * (3 / 10)
    + evaluate_element (branchElement d.zhi) yd.yongsin yd.heesin * (7 / 10)

/-- From C3's words: the year-cycle score with the combined result scaled by
exactly 2/3. -/
def spec_seun_score (saju : SajuData) (target_year : ℤ) : ℚ :=
  let seun := get_ganzi_for_year target_year
  let yd := saju.yongsin_data
  (evaluate_element (stemElement seun.gan) yd.yongsin yd.heesin * (3 / 10)
    + evaluate_element (branchElement seun.zhi) yd.yongsin yd.heesin * (7 / 10)) * (2 / 3)

/-- From C5's words: the input is malformed — a date does not parse as a
valid Year-Month-Day, the birth time has no hour component parseable as an
integer in 0–23, or the gender tag is unrecognized. -/
def claimMalformed (bd bt td g : String) : Prop :=
  parseDate bd = none ∨ parseDate td = none
    ∨ (¬ ∃ h : ℤ, hourOf bt = some h ∧ 0 ≤ h ∧ h ≤ 23)
    ∨ (g ≠ "M" ∧ g ≠ "F")

/-- Rank of a keyword under the ordering
STRONG_BEARISH < BEARISH < NEUTRAL < BULLISH < STRONG_BULLISH. -/
def kwRank : Keyword → ℕ
  | .STRONG_BEARISH => 0
  | .BEARISH => 1
  | .NEUTRAL => 2
  | .BULLISH => 3
  | .STRONG_BULLISH => 4

/-- Position of an element in the tally dict's iteration order. -/
def elemIdx : Element → ℕ
  | wood => 0 | fire => 1 | earth => 2 | metal => 3 | water => 4

/-! ## Concrete example (the spec's golden input) -/

/-- The saju derived from birth 1990-05-15, hour 14. -/
def exSaju : SajuData := _calculate_saju ⟨1990, 5, 15⟩ 14

/-- The full engine output for the spec's golden input
(birth 1990-05-15 14:30, target 2026-02-20, gender M). -/
def exResult : CryptoResult :=
  { trading_luck_score := 3 / 4
    favorable_sectors := ["INFRASTRUCTURE", "LAYER1", "BTC"]
    volatility_index := "LOW"
    market_sentiment := "VOLATILE"
    wealth_opportunity := "HIGH"
    raw_score := 74
    keyword := Keyword.BULLISH }

/-- The trinity score record for the golden input. -/
def exTrinity : TrinityScoreRec := _calculate_trinity_score_v2 exSaju 2026

/-! ## Helper lemmas -/

/-- `strptime` pins `%Y` to exactly four digits: a three-digit year is
rejected, as in CPython. -/
theorem parseDate_rejects_short_year : parseDate "990-01-01" = none := by decide

/-- `strptime`'s `%d` accepts a space-padded one-digit day, as in CPython. -/
theorem parseDate_accepts_padded_day : parseDate "2026-02- 5" = some ⟨2026, 2, 5⟩ := by
  decide

/-- `strptime`'s `\d` accepts Unicode decimal digits, as in CPython. -/
theorem parseDate_accepts_unicode_year : parseDate "٢026-02-05" = some ⟨2026, 2, 5⟩ := by
  decide

/-- Python `int` accepts a single underscore between digits (PEP 515). -/
theorem pyInt_accepts_underscore : pyInt "1_4" = some 14 := by decide

/-- Python `int` accepts Unicode decimal digits. -/
theorem pyInt_accepts_unicode_digits : pyInt "١٤" = some 14 := by decide

/-- Python `int` rejects doubled underscores. -/
theorem pyInt_rejects_double_underscore : pyInt "1__4" = none := by decide

/-- Python `int` strips Unicode whitespace such as no-break spaces. -/
theorem pyInt_strips_unicode_space : pyInt "\xa014\xa0" = some 14 := by decide

theorem le_pyRound (z : ℤ) (q : ℚ) (h : (z : ℚ) ≤ q) : z ≤ pyRound q := by
  have hf : z ≤ ⌊q⌋ := Int.le_floor.mpr h
  unfold pyRound
  split_ifs <;> omega

theorem pyRound_le (z : ℤ) (q : ℚ) (h : q ≤ (z : ℚ)) : pyRound q ≤ z := by
  have hfz : ⌊q⌋ ≤ z := by
    have h1 : ⌊q⌋ ≤ ⌊(z : ℚ)⌋ := Int.floor_le_floor h
    simpa using h1
  have hfl : (⌊q⌋ : ℚ) ≤ q := Int.floor_le q
  unfold pyRound
  split_ifs with h1 h2 h3
  · omega
  · have hhalf : (1 : ℚ) / 2 ≤ q - (⌊q⌋ : ℚ) := not_lt.mp h1
    have : (⌊q⌋ : ℚ) < (z : ℚ) := by linarith
    have : ⌊q⌋ < z := by exact_mod_cast this
    omega
  · omega
  · have hhalf : (1 : ℚ) / 2 ≤ q - (⌊q⌋ : ℚ) := not_lt.mp h1
    have : (⌊q⌋ : ℚ) < (z : ℚ) := by linarith
    have : ⌊q⌋ < z := by exact_mod_cast this
    omega

theorem pyRound_intCast (z : ℤ) : pyRound (z : ℚ) = z := by
  unfold pyRound
  simp

theorem roundTo2_nonneg (q : ℚ) (h : 0 ≤ q) : 0 ≤ roundTo2 q := by
  unfold roundTo2
  have h0 : (0 : ℤ) ≤ pyRound (q * 100) := by
    refine le_pyRound 0 (q * 100) ?_
    push_cast
    positivity
  have : (0 : ℚ) ≤ (pyRound (q * 100) : ℚ) := by exact_mod_cast h0
  positivity

theorem roundTo2_le_one (q : ℚ) (h : q ≤ 1) : roundTo2 q ≤ 1 := by
  unfold roundTo2
  have h100 : pyRound (q * 100) ≤ 100 := by
    refine pyRound_le 100 (q * 100) ?_
    push_cast
    nlinarith
  have hc : (pyRound (q * 100) : ℚ) ≤ 100 := by exact_mod_cast h100
  linarith

theorem roundTo2_div100 (z : ℤ) : roundTo2 ((z : ℚ) / 100) = (z : ℚ) / 100 := by
  unfold roundTo2
  have : (z : ℚ) / 100 * 100 = (z : ℚ) := by
    field_simp
  rw [this, pyRound_intCast]

theorem roundTo2_idem (q : ℚ) : roundTo2 (roundTo2 q) = roundTo2 q := by
  have h : roundTo2 q = ((pyRound (q * 100) : ℤ) : ℚ) / 100 := rfl
  rw [h, roundTo2_div100]

theorem le_foldl_max (l : List ℚ) (x : ℚ) : x ≤ l.foldl max x := by
  induction l generalizing x with
  | nil => exact le_refl x
  | cons a l ih =>
    calc x ≤ max x a := le_max_left x a
    _ ≤ l.foldl max (max x a) := ih (max x a)

theorem mem_le_foldl_max (l : List ℚ) (x a : ℚ) (ha : a ∈ l) : a ≤ l.foldl max x := by
  induction l generalizing x with
  | nil => cases ha
  | cons b l ih =>
    rcases List.mem_cons.mp ha with h | h
    · subst h
      calc a ≤ max x a := le_max_right x a
      _ ≤ l.foldl max (max x a) := le_foldl_max l (max x a)
    · exact ih (max x b) h

theorem foldl_max_mem (l : List ℚ) (x : ℚ) : l.foldl max x = x ∨ l.foldl max x ∈ l := by
  induction l generalizing x with
  | nil => exact Or.inl rfl
  | cons a l ih =>
    rcases ih (max x a) with h | h
    · rcases max_choice x a with hm | hm
      · exact Or.inl (by rw [List.foldl_cons, h, hm])
      · exact Or.inr (by rw [List.foldl_cons, h, hm]; exact List.mem_cons_self a l)
    · exact Or.inr (List.mem_cons_of_mem a h)

theorem foldl_min_le (l : List ℚ) (x : ℚ) : l.foldl min x ≤ x := by
  induction l generalizing x with
  | nil => exact le_refl x
  | cons a l ih =>
    calc l.foldl min (min x a) ≤ min x a := ih (min x a)
    _ ≤ x := min_le_left x a

theorem foldl_min_le_mem (l : List ℚ) (x a : ℚ) (ha : a ∈ l) : l.foldl min x ≤ a := by
  induction l generalizing x with
  | nil => cases ha
  | cons b l ih =>
    rcases List.mem_cons.mp ha with h | h
    · subst h
      calc l.foldl min (min x a) ≤ min x a := foldl_min_le l (min x a)
      _ ≤ a := min_le_right x a
    · exact ih (min x b) h

theorem foldl_min_mem (l : List ℚ) (x : ℚ) : l.foldl min x = x ∨ l.foldl min x ∈ l := by
  induction l generalizing x with
  | nil => exact Or.inl rfl
  | cons a l ih =>
    rcases ih (min x a) with h | h
    · rcases min_choice x a with hm | hm
      · exact Or.inl (by rw [List.foldl_cons, h, hm])
      · exact Or.inr (by rw [List.foldl_cons, h, hm]; exact List.mem_cons_self a l)
    · exact Or.inr (List.mem_cons_of_mem a h)

theorem pyMax_mem (l : List ℚ) (hne : l ≠ []) : pyMax l ∈ l := by
  cases l with
  | nil => cases hne rfl
  | cons x xs =>
    rcases foldl_max_mem xs x with h | h
    · rw [pyMax, h]; exact List.mem_cons_self x xs
    · exact List.mem_cons_of_mem x h

theorem le_pyMax (l : List ℚ) (a : ℚ) (ha : a ∈ l) : a ≤ pyMax l := by
  cases l with
  | nil => cases ha
  | cons x xs =>
    rcases List.mem_cons.mp ha with h | h
    · subst h; exact le_foldl_max xs a
    · exact mem_le_foldl_max xs x a h

theorem pyMin_mem (l : List ℚ) (hne : l ≠ []) : pyMin l ∈ l := by
  cases l with
  | nil => cases hne rfl
  | cons x xs =>
    rcases foldl_min_mem xs x with h | h
    · rw [pyMin, h]; exact List.mem_cons_self x xs
    · exact List.mem_cons_of_mem x h

theorem pyMin_le (l : List ℚ) (a : ℚ) (ha : a ∈ l) : pyMin l ≤ a := by
  cases l with
  | nil => cases ha
  | cons x xs =>
    rcases List.mem_cons.mp ha with h | h
    · subst h; exact foldl_min_le xs a
    · exact foldl_min_le_mem xs x a h

theorem sum_count_univ (l : List Element) : (∑ e : Element, l.count e) = l.length := by
  induction l with
  | nil => simp
  | cons a l ih =>
    have hstep : ∀ e : Element, (a :: l).count e = l.count e + if a = e then 1 else 0 := by
      intro e
      simp [List.count_cons]
    calc (∑ e : Element, (a :: l).count e)
        = ∑ e : Element, (l.count e + if a = e then 1 else 0) := by
          exact Finset.sum_congr rfl (fun e _ => hstep e)
      _ = (∑ e : Element, l.count e) + ∑ e : Element, (if a = e then 1 else 0) := by
          rw [Finset.sum_add_distrib]
      _ = l.length + 1 := by
          rw [ih, Finset.sum_ite_eq Finset.univ a (fun _ => 1)]
          simp
      _ = (a :: l).length := by simp

theorem hourOf_colon (bt : String) (h : ℤ) (hbt : hourOf bt = some h) :
    bt.data.contains ':' = true
      ∧ pyIntChars ((splitOnChar ':' bt.data).headD []) = some h := by
  unfold hourOf at hbt
  by_cases hc : bt.data.contains ':'
  · rw [if_pos hc] at hbt
    exact ⟨hc, hbt⟩
  · rw [if_neg hc] at hbt
    cases hbt

theorem calculate_ok (bd bt td g : String) (b t : YMD) (h : ℤ)
    (hbd : parseDate bd = some b) (htd : parseDate td = some t)
    (hbt : hourOf bt = some h) (h0 : 0 ≤ h) (h23 : h ≤ 23)
    (hg : g = "M" ∨ g = "F") :
    calculate_daily_luck bd bt td g = Except.ok (compute_result b h t) := by
  obtain ⟨hc, hp⟩ := hourOf_colon bt h hbt
  simp only [calculate_daily_luck, hbd, htd, hc, hp, if_true]
  rw [if_pos ⟨h0, h23⟩, if_pos hg]

theorem calculate_gender_error (bd bt td g : String) (b t : YMD) (h : ℤ)
    (hbd : parseDate bd = some b) (htd : parseDate td = some t)
    (hbt : hourOf bt = some h) (h0 : 0 ≤ h) (h23 : h ≤ 23)
    (hg : ¬(g = "M" ∨ g = "F")) :
    calculate_daily_luck bd bt td g = Except.error ("Gender must be M or F: " ++ g) := by
  obtain ⟨hc, hp⟩ := hourOf_colon bt h hbt
  simp only [calculate_daily_luck, hbd, htd, hc, hp, if_true]
  rw [if_pos ⟨h0, h23⟩, if_neg hg]

theorem calculate_ok_shape (bd bt td g : String) (r : CryptoResult)
    (hv : calculate_daily_luck bd bt td g = Except.ok r) :
    ∃ b h t, r = compute_result b h t := by
  unfold calculate_daily_luck at hv
  split at hv
  · cases hv
  split at hv
  · cases hv
  split at hv
  · split at hv
    · cases hv
    split at hv
    · split at hv
      · exact ⟨_, _, _, (Except.ok.inj hv).symm⟩
      · cases hv
    · cases hv
  · cases hv

theorem calculate_ok_iff (bd bt td g : String) :
    (∃ v, calculate_daily_luck bd bt td g = Except.ok v)
      ↔ (parseDate bd ≠ none ∧ parseDate td ≠ none
          ∧ (∃ h : ℤ, hourOf bt = some h ∧ 0 ≤ h ∧ h ≤ 23)
          ∧ (g = "M" ∨ g = "F")) := by
  constructor
  · rintro ⟨v, hv⟩
    unfold calculate_daily_luck at hv
    split at hv
    · cases hv
    next b hbd =>
    split at hv
    · cases hv
    next t htd =>
    split at hv
    next hc =>
      split at hv
      · cases hv
      next h hp =>
      split at hv
      next hrange =>
        split at hv
        next hg =>
          refine ⟨by simp [hbd], by simp [htd], ⟨h, ?_, hrange.1, hrange.2⟩, hg⟩
          unfold hourOf
          rw [if_pos hc, hp]
        · cases hv
      · cases hv
    · cases hv
  · rintro ⟨hbd, htd, ⟨h, hbt, h0, h23⟩, hg⟩
    obtain ⟨b, hb⟩ := Option.ne_none_iff_exists'.mp hbd
    obtain ⟨t, ht⟩ := Option.ne_none_iff_exists'.mp htd
    exact ⟨compute_result b h t, calculate_ok bd bt td g b t h hb ht hbt h0 h23 hg⟩

theorem except_error_iff_not_ok (x : Except String CryptoResult) :
    (∃ e, x = Except.error e) ↔ ¬ ∃ v, x = Except.ok v := by
  cases x <;> simp

theorem roundTo2_compute_result (b : YMD) (h : ℤ) (t : YMD) :
    roundTo2 ((compute_result b h t).trading_luck_score)
      = (compute_result b h t).trading_luck_score := by
  simp only [compute_result, _map_to_crypto_terms]
  exact roundTo2_idem _

theorem deepLoop_ok (bd td g : String) (b t : YMD)
    (hbd : parseDate bd = some b) (htd : parseDate td = some t)
    (hg : g = "M" ∨ g = "F") (l : List ℕ)
    (hl : ∀ h ∈ l, hourOf (hourString h) = some (h : ℤ) ∧ (h : ℤ) ≤ 23) :
    deepLoop bd td g l
      = Except.ok (l.map (fun (h : ℕ) => ((h : ℕ), compute_result b (h : ℤ) t))) := by
  induction l with
  | nil => rfl
  | cons hd tl ih =>
    obtain ⟨hh, hb23⟩ := hl hd (List.mem_cons_self hd tl)
    have hcalc := calculate_ok bd (hourString hd) td g b t (hd : ℤ) hbd htd hh
      (by positivity) hb23 hg
    have htl := ih (fun h hm => hl h (List.mem_cons_of_mem hd hm))
    simp only [deepLoop, hcalc, htl, List.map_cons]

theorem hourString_hourOf :
    ∀ h ∈ List.range 24, hourOf (hourString h) = some (h : ℤ) ∧ (h : ℤ) ≤ 23 := by
  decide

theorem get_deep_luck_ok (bd td g : String) (b t : YMD)
    (hbd : parseDate bd = some b) (htd : parseDate td = some t)
    (hg : g = "M" ∨ g = "F") :
    get_deep_luck bd td g = Except.ok (deepCompute b t) := by
  unfold get_deep_luck deepCompute
  rw [deepLoop_ok bd td g b t hbd htd hg (List.range 24) hourString_hourOf]

theorem firstArgmax_spec (f : Element → ℕ) :
    (∀ e, f e ≤ f (firstArgmax f))
      ∧ (∀ e, f e = f (firstArgmax f) → elemIdx (firstArgmax f) ≤ elemIdx e) := by
  unfold firstArgmax
  simp only [List.foldl_cons, List.foldl_nil]
  constructor
  · intro e
    cases e <;> split_ifs <;> omega
  · intro e
    cases e <;> split_ifs <;> (try simp only [elemIdx]) <;> omega

theorem determine_keyword_mono (s₁ s₂ : ℤ) (h : s₁ ≤ s₂) :
    kwRank (_determine_keyword s₁) ≤ kwRank (_determine_keyword s₂) := by
  unfold _determine_keyword
  split_ifs <;> simp [kwRank] <;> omega

/-! ## Concrete evaluation of the golden input -/

theorem evaluate_exDaewoon_gan :
    evaluate_element (stemElement (_get_current_daewoon exSaju 2026).gan)
      exSaju.yongsin_data.yongsin exSaju.yongsin_data.heesin = 30 := by
  have h1 : stemElement (_get_current_daewoon exSaju 2026).gan = Element.water := by decide
  have h2 : exSaju.yongsin_data.yongsin = Element.water := by decide
  have h3 : exSaju.yongsin_data.heesin = Element.metal := by decide
  rw [h1, h2, h3]
  norm_num [evaluate_element]

theorem evaluate_exDaewoon_zhi :
    evaluate_element (branchElement (_get_current_daewoon exSaju 2026).zhi)
      exSaju.yongsin_data.yongsin exSaju.yongsin_data.heesin = 15 := by
  have h1 : branchElement (_get_current_daewoon exSaju 2026).zhi = Element.metal := by decide
  have h2 : exSaju.yongsin_data.yongsin = Element.water := by decide
  have h3 : exSaju.yongsin_data.heesin = Element.metal := by decide
  rw [h1, h2, h3]
  simp [evaluate_element, controls_element, control_map]

theorem exDaewoonScore : _calculate_daewoon_score_v2 exSaju 2026 = 39 / 2 := by
  simp only [_calculate_daewoon_score_v2]
  rw [evaluate_exDaewoon_gan, evaluate_exDaewoon_zhi]
  norm_num

theorem spec_exDaewoonScore : spec_daewoon_score exSaju 2026 = -19 / 2 := by
  have h1 : stemElement (spec_daewoon_pair exSaju 2026).gan = Element.metal := by decide
  have h2 : branchElement (spec_daewoon_pair exSaju 2026).zhi = Element.earth := by decide
  have h3 : exSaju.yongsin_data.yongsin = Element.water := by decide
  have h4 : exSaju.yongsin_data.heesin = Element.metal := by decide
  simp only [spec_daewoon_score, h1, h2, h3, h4]
  simp [evaluate_element, controls_element, control_map]
  norm_num

theorem exSeunScore2026 : _calculate_seun_score_v2 exSaju 2026 = 0 := by
  have h1 : stemElement (get_ganzi_for_year 2026).gan = Element.fire := by decide
  have h2 : branchElement (get_ganzi_for_year 2026).zhi = Element.fire := by decide
  have h3 : exSaju.yongsin_data.yongsin = Element.water := by decide
  have h4 : exSaju.yongsin_data.heesin = Element.metal := by decide
  simp only [_calculate_seun_score_v2, h1, h2, h3, h4]
  simp [evaluate_element, controls_element, control_map]

theorem exSeunScore2032 : _calculate_seun_score_v2 exSaju 2032 = 201 / 10 := by
  have h1 : stemElement (get_ganzi_for_year 2032).gan = Element.water := by decide
  have h2 : branchElement (get_ganzi_for_year 2032).zhi = Element.water := by decide
  have h3 : exSaju.yongsin_data.yongsin = Element.water := by decide
  have h4 : exSaju.yongsin_data.heesin = Element.metal := by decide
  simp only [_calculate_seun_score_v2, h1, h2, h3, h4]
  norm_num [evaluate_element]

theorem spec_exSeunScore2032 : spec_seun_score exSaju 2032 = 20 := by
  have h1 : stemElement (get_ganzi_for_year 2032).gan = Element.water := by decide
  have h2 : branchElement (get_ganzi_for_year 2032).zhi = Element.water := by decide
  have h3 : exSaju.yongsin_data.yongsin = Element.water := by decide
  have h4 : exSaju.yongsin_data.heesin = Element.metal := by decide
  simp only [spec_seun_score, h1, h2, h3, h4]
  norm_num [evaluate_element]

theorem exInteractionScore : _calculate_interaction_score exSaju = 5 := by
  have h1 : exSaju.clash_count = 0 := by decide
  have h2 : exSaju.harmony_count = 1 := by decide
  simp only [_calculate_interaction_score, h1, h2]
  norm_num

theorem pyRound_149_half : pyRound (149 / 2 : ℚ) = 74 := by
  have hfl : ⌊(149 : ℚ) / 2⌋ = 74 := by norm_num [Int.floor_eq_iff]
  unfold pyRound
  rw [hfl]
  norm_num

theorem exTrinity_eq :
    _calculate_trinity_score_v2 exSaju 2026 =
      { total_score := 74, daewoon_score := 39 / 2, seun_score := 0,
        interaction_score := 5, keyword := Keyword.BULLISH } := by
  simp only [_calculate_trinity_score_v2, exDaewoonScore, exSeunScore2026, exInteractionScore]
  have harg : (50 : ℚ) + 39 / 2 + 0 + ((5 : ℤ) : ℚ) = 149 / 2 := by norm_num
  rw [harg, pyRound_149_half]
  norm_num [_determine_keyword]

theorem roundTo2_64_85 : roundTo2 (((74 - 10 : ℤ) : ℚ) / 85) = 3 / 4 := by
  have harg : ((74 - 10 : ℤ) : ℚ) / 85 * 100 = 1280 / 17 := by norm_num
  have hfl : ⌊(1280 : ℚ) / 17⌋ = 75 := by norm_num [Int.floor_eq_iff]
  have hround : pyRound (1280 / 17 : ℚ) = 75 := by
    unfold pyRound
    rw [hfl]
    norm_num
  unfold roundTo2
  rw [harg, hround]
  norm_num

theorem golden_compute : compute_result ⟨1990, 5, 15⟩ 14 ⟨2026, 2, 20⟩ = exResult := by
  show _map_to_crypto_terms (_calculate_trinity_score_v2 exSaju 2026) exSaju = exResult
  rw [exTrinity_eq]
  have hdom : firstArgmax exSaju.elements = Element.earth := by decide
  have hcl : exSaju.clash_count = 0 := by decide
  have hhm : exSaju.harmony_count = 1 := by decide
  simp only [_map_to_crypto_terms, hdom, hcl, hhm, roundTo2_64_85]
  simp [exResult, element_to_sector]

theorem golden_calc :
    calculate_daily_luck "1990-05-15" "14:30" "2026-02-20" "M" = Except.ok exResult := by
  rw [calculate_ok "1990-05-15" "14:30" "2026-02-20" "M" ⟨1990, 5, 15⟩ ⟨2026, 2, 20⟩ 14
    (by decide) (by decide) (by decide) (by decide) (by decide) (Or.inl rfl)]
  exact congrArg Except.ok golden_compute

/-! ## Claim theorems -/

/-- C1, counterexample: on birth_date 1990-05-15, birth_time 14:30,
target_date 2026-02-20, gender M, `calculate_daily_luck` returns
raw_score 74, not 85 as the claim asserts. -/
theorem claim1_golden_counterexample :
    (calculate_daily_luck "1990-05-15" "14:30" "2026-02-20" "M").map
        CryptoResult.raw_score = Except.ok 74
      ∧ (74 : ℤ) ≠ 85 := by
  constructor
  · rw [golden_calc]
    rfl
  · decide

/-- C1 (amended): on the golden input the engine returns raw_score 74, and
its favorable_sectors field is the sector list of the element with the
highest tally for that pillar set. -/
theorem claim1_golden_output :
    calculate_daily_luck "1990-05-15" "14:30" "2026-02-20" "M" = Except.ok exResult
      ∧ exResult.raw_score = 74
      ∧ exResult.favorable_sectors = element_to_sector (firstArgmax exSaju.elements) := by
  refine ⟨golden_calc, rfl, ?_⟩
  have hdom : firstArgmax exSaju.elements = Element.earth := by decide
  rw [hdom]
  rfl

/-- C2, counterexample: the decade-cycle pair is not the month pillar offset
by exactly the cycle number — at the golden saju and target year 2026 both
indices and the resulting score differ from that specification
(the code offsets by the cycle number plus one). -/
theorem claim2_daewoon_counterexample :
    ((_get_current_daewoon exSaju 2026).gan ≠ (spec_daewoon_pair exSaju 2026).gan
      ∧ (_get_current_daewoon exSaju 2026).zhi ≠ (spec_daewoon_pair exSaju 2026).zhi)
      ∧ _calculate_daewoon_score_v2 exSaju 2026 ≠ spec_daewoon_score exSaju 2026 := by
  refine ⟨by decide, ?_⟩
  rw [exDaewoonScore, spec_exDaewoonScore]
  norm_num

/-- C2 (amended): the decade-cycle number is
`(target_year − birth_year + 1 − 3) div 10`; the decade-cycle stem and
branch indices are the month pillar's indices offset by that cycle number
plus one (mod 10 / mod 12); the stem and branch are scored +30 on the
favorable element, +15 on the auxiliary, −20 when controlling the favorable
element, 0 otherwise; and the decade-cycle score is
stem-score×0.3 + branch-score×0.7. -/
theorem claim2_daewoon_formula : ∀ (saju : SajuData) (target_year : ℤ),
    (_get_current_daewoon saju target_year).gan
        = zmod10 ((saju.pillars.month.gan.val : ℤ)
            + (target_year - saju.birthYear + 1 - 3).fdiv 10 + 1)
      ∧ (_get_current_daewoon saju target_year).zhi
        = zmod12 ((saju.pillars.month.zhi.val : ℤ)
            + (target_year - saju.birthYear + 1 - 3).fdiv 10 + 1)
      ∧ _calculate_daewoon_score_v2 saju target_year
        = (if stemElement (_get_current_daewoon saju target_year).gan
                = saju.yongsin_data.yongsin then (30 : ℚ)
            else if stemElement (_get_current_daewoon saju target_year).gan
                = saju.yongsin_data.heesin then 15
            else if controls_element (stemElement (_get_current_daewoon saju target_year).gan)
                saju.yongsin_data.yongsin then -20 else 0) * (3 / 10)
          + (if branchElement (_get_current_daewoon saju target_year).zhi
                = saju.yongsin_data.yongsin then (30 : ℚ)
            else if branchElement (_get_current_daewoon saju target_year).zhi
                = saju.yongsin_data.heesin then 15
            else if controls_element (branchElement (_get_current_daewoon saju target_year).zhi)
                saju.yongsin_data.yongsin then -20 else 0) * (7 / 10) :=
  fun _ _ => ⟨rfl, rfl, rfl⟩

/-- C2 (amended), instantiated at the golden saju and target year 2026. -/
theorem claim2_daewoon_formula_witness :
    (_get_current_daewoon exSaju 2026).gan
      = zmod10 ((exSaju.pillars.month.gan.val : ℤ)
          + ((2026 : ℤ) - exSaju.birthYear + 1 - 3).fdiv 10 + 1) :=
  (claim2_daewoon_formula exSaju 2026).1

/-- C3, counterexample: the year-cycle score is scaled by the literal 0.67,
not by exactly 2/3 — at the golden saju and target year 2032 the code
produces 20.1 while the claimed 2/3 scaling would produce 20. -/
theorem claim3_seun_counterexample :
    _calculate_seun_score_v2 exSaju 2032 = 201 / 10
      ∧ spec_seun_score exSaju 2032 = 20
      ∧ (201 / 10 : ℚ) ≠ 20 :=
  ⟨exSeunScore2032, spec_exSeunScore2032, by norm_num⟩

/-- C3 (amended): the year-cycle pair comes from the fixed 60-cycle offset
anchored at 2024 = (stem 0, branch 4); its stem and branch are scored with
the same favorable-element rule, weighted 0.3/0.7, and the combined result
is scaled by the literal 0.67 (approximately, but not exactly, 2/3). -/
theorem claim3_seun_formula : ∀ (saju : SajuData) (target_year : ℤ),
    (get_ganzi_for_year target_year).gan = zmod10 (target_year - 2024 + 0 + 10)
      ∧ (get_ganzi_for_year target_year).zhi = zmod12 (target_year - 2024 + 4 + 12)
      ∧ _calculate_seun_score_v2 saju target_year
        = ((if stemElement (get_ganzi_for_year target_year).gan
                = saju.yongsin_data.yongsin then (30 : ℚ)
            else if stemElement (get_ganzi_for_year target_year).gan
                = saju.yongsin_data.heesin then 15
            else if controls_element (stemElement (get_ganzi_for_year target_year).gan)
                saju.yongsin_data.yongsin then -20 else 0) * (3 / 10)
          + (if branchElement (get_ganzi_for_year target_year).zhi
                = saju.yongsin_data.yongsin then (30 : ℚ)
            else if branchElement (get_ganzi_for_year target_year).zhi
                = saju.yongsin_data.heesin then 15
            else if controls_element (branchElement (get_ganzi_for_year target_year).zhi)
                saju.yongsin_data.yongsin then -20 else 0) * (7 / 10)) * (67 / 100) :=
  fun _ _ => ⟨rfl, rfl, rfl⟩

/-- C3 (amended), instantiated at the golden saju and target year 2032. -/
theorem claim3_seun_formula_witness :
    (get_ganzi_for_year 2032).gan = zmod10 ((2032 : ℤ) - 2024 + 0 + 10) :=
  (claim3_seun_formula exSaju 2032).1

/-- C4: every successful result has an integer raw score in [10,95], and
its normalized score equals (raw−10)/85 rounded to 2 decimals and lies in
[0,1]. -/
theorem claim4_score_range (bd bt td g : String) (r : CryptoResult)
    (hv : calculate_daily_luck bd bt td g = Except.ok r) :
    10 ≤ r.raw_score ∧ r.raw_score ≤ 95
      ∧ r.trading_luck_score = roundTo2 (((r.raw_score : ℚ) - 10) / 85)
      ∧ 0 ≤ r.trading_luck_score ∧ r.trading_luck_score ≤ 1 := by
  obtain ⟨b, h, t, rfl⟩ := calculate_ok_shape bd bt td g r hv
  have hraw : (compute_result b h t).raw_score
      = max 10 (min 95 (pyRound (50
          + _calculate_daewoon_score_v2 (_calculate_saju b h) (t.y : ℤ)
          + _calculate_seun_score_v2 (_calculate_saju b h) (t.y : ℤ)
          + ((_calculate_interaction_score (_calculate_saju b h) : ℤ) : ℚ)))) := rfl
  have h10 : 10 ≤ (compute_result b h t).raw_score := by
    rw [hraw]; exact le_max_left _ _
  have h95 : (compute_result b h t).raw_score ≤ 95 := by
    rw [hraw]; exact max_le (by norm_num) (min_le_left _ _)
  have hform : (compute_result b h t).trading_luck_score
      = roundTo2 ((((compute_result b h t).raw_score : ℚ) - 10) / 85) := by
    have : (compute_result b h t).trading_luck_score
        = roundTo2 ((((compute_result b h t).raw_score - 10 : ℤ) : ℚ) / 85) := rfl
    rw [this]
    congr 1
    push_cast
    ring
  refine ⟨h10, h95, hform, ?_, ?_⟩
  · rw [hform]
    refine roundTo2_nonneg _ ?_
    have : (10 : ℚ) ≤ ((compute_result b h t).raw_score : ℚ) := by exact_mod_cast h10
    have h85 : (0 : ℚ) < 85 := by norm_num
    apply div_nonneg _ (le_of_lt h85)
    linarith
  · rw [hform]
    refine roundTo2_le_one _ ?_
    have : ((compute_result b h t).raw_score : ℚ) ≤ 95 := by exact_mod_cast h95
    rw [div_le_one (by norm_num : (0 : ℚ) < 85)]
    linarith

/-- C4, instantiated at the golden input. -/
theorem claim4_score_range_witness :
    10 ≤ exResult.raw_score ∧ exResult.raw_score ≤ 95
      ∧ exResult.trading_luck_score = roundTo2 (((exResult.raw_score : ℚ) - 10) / 85)
      ∧ 0 ≤ exResult.trading_luck_score ∧ exResult.trading_luck_score ≤ 1 :=
  claim4_score_range "1990-05-15" "14:30" "2026-02-20" "M" exResult golden_calc

/-- C5: `calculate_daily_luck` fails exactly on malformed input (a date that
does not parse, a birth time without an hour component parseable as an
integer 0–23, or an unrecognized gender tag), and succeeds with a result on
every well-formed input. -/
theorem claim5_failure_iff (bd bt td g : String) :
    ((∃ e, calculate_daily_luck bd bt td g = Except.error e) ↔ claimMalformed bd bt td g)
      ∧ ((∃ v, calculate_daily_luck bd bt td g = Except.ok v)
          ↔ ¬ claimMalformed bd bt td g) := by
  have hok := calculate_ok_iff bd bt td g
  have herr := except_error_iff_not_ok (calculate_daily_luck bd bt td g)
  have hiff : ¬ claimMalformed bd bt td g
      ↔ (parseDate bd ≠ none ∧ parseDate td ≠ none
          ∧ (∃ h : ℤ, hourOf bt = some h ∧ 0 ≤ h ∧ h ≤ 23)
          ∧ (g = "M" ∨ g = "F")) := by
    unfold claimMalformed
    constructor
    · intro hn
      push_neg at hn
      obtain ⟨ha, hb, hc, hd⟩ := hn
      refine ⟨ha, hb, hc, ?_⟩
      by_cases hm : g = "M"
      · exact Or.inl hm
      · exact Or.inr (hd hm)
    · rintro ⟨ha, hb, hc, hd⟩ hcontra
      rcases hcontra with hx | hx | hx | hx
      · exact ha hx
      · exact hb hx
      · exact hx hc
      · rcases hd with hm | hf
        · exact hx.1 hm
        · exact hx.2 hf
  constructor
  · rw [herr, hok, ← hiff, not_not]
  · rw [hok]
    exact hiff.symm

/-- C5, instantiated at the golden input. -/
theorem claim5_failure_iff_witness :
    (∃ v, calculate_daily_luck "1990-05-15" "14:30" "2026-02-20" "M" = Except.ok v)
      ↔ ¬ claimMalformed "1990-05-15" "14:30" "2026-02-20" "M" :=
  (claim5_failure_iff "1990-05-15" "14:30" "2026-02-20" "M").2

/-- C6: for every validated input, the element tally of the four pillars is
the one computed by `_calculate_elements`, its five counts sum to exactly 8
(four pillars times two components), and every count is non-negative. -/
theorem claim6_tally_sum : ∀ (b : YMD) (h : ℤ),
    (_calculate_saju b h).elements = _calculate_elements (_calculate_saju b h).pillars
      ∧ (∑ e : Element, (_calculate_saju b h).elements e) = 8
      ∧ ∀ e : Element, 0 ≤ (_calculate_saju b h).elements e := by
  intro b h
  refine ⟨rfl, ?_, fun e => Nat.zero_le _⟩
  show (∑ e : Element, (pillarElements (_calculate_saju b h).pillars).count e) = 8
  rw [sum_count_univ]
  rfl

/-- C6, instantiated at the golden input. -/
theorem claim6_tally_sum_witness :
    (∑ e : Element, (_calculate_saju ⟨1990, 5, 15⟩ 14).elements e) = 8 :=
  (claim6_tally_sum ⟨1990, 5, 15⟩ 14).2.1

/-- C7: every successful result's keyword is determined from the final
integer score by the fixed 30/45/65/80 thresholds, and the threshold map is
monotone non-decreasing in the score under the keyword ordering. -/
theorem claim7_keyword (bd bt td g : String) (r : CryptoResult)
    (hv : calculate_daily_luck bd bt td g = Except.ok r) :
    r.keyword = _determine_keyword r.raw_score
      ∧ ∀ s₁ s₂ : ℤ, s₁ ≤ s₂
          → kwRank (_determine_keyword s₁) ≤ kwRank (_determine_keyword s₂) := by
  obtain ⟨b, h, t, rfl⟩ := calculate_ok_shape bd bt td g r hv
  exact ⟨rfl, determine_keyword_mono⟩

/-- C7, instantiated at the golden input. -/
theorem claim7_keyword_witness :
    exResult.keyword = _determine_keyword exResult.raw_score :=
  (claim7_keyword "1990-05-15" "14:30" "2026-02-20" "M" exResult golden_calc).1

/-- C8: favorable_sectors is the fixed sector list of the single
most-frequent element, the table is the claimed one, and the most-frequent
element is the first maximal element in the tally's iteration order
(ties broken by that order). -/
theorem claim8_sectors : ∀ (ts : TrinityScoreRec) (saju : SajuData),
    (_map_to_crypto_terms ts saju).favorable_sectors
        = element_to_sector (firstArgmax saju.elements)
      ∧ element_to_sector Element.fire = ["MEME", "AI", "VOLATILE"]
      ∧ element_to_sector Element.earth = ["INFRASTRUCTURE", "LAYER1", "BTC"]
      ∧ element_to_sector Element.water = ["DEFI", "EXCHANGE", "LIQUIDITY"]
      ∧ element_to_sector Element.metal = ["RWA", "STABLECOIN"]
      ∧ element_to_sector Element.wood = ["NEW_LISTING", "GAMEFI", "NFT"]
      ∧ (∀ e, saju.elements e ≤ saju.elements (firstArgmax saju.elements))
      ∧ (∀ e, saju.elements e = saju.elements (firstArgmax saju.elements)
          → elemIdx (firstArgmax saju.elements) ≤ elemIdx e) :=
  fun _ saju =>
    ⟨rfl, rfl, rfl, rfl, rfl, rfl,
      (firstArgmax_spec saju.elements).1, (firstArgmax_spec saju.elements).2⟩

/-- C8, instantiated at the golden input. -/
theorem claim8_sectors_witness :
    (_map_to_crypto_terms exTrinity exSaju).favorable_sectors
      = element_to_sector (firstArgmax exSaju.elements) :=
  (claim8_sectors exTrinity exSaju).1

/-- C9: on valid inputs the hourly endpoint succeeds, produces exactly 24
per-hour results whose hours are 0..23, each obtained from
`calculate_daily_luck` at birth_time "00:00".."23:00", and its reported
max_score/min_score are the true maximum/minimum of the 24 normalized
scores. -/
theorem claim9_hourly (bd td g : String) (b t : YMD)
    (hbd : parseDate bd = some b) (htd : parseDate td = some t)
    (hg : g = "M" ∨ g = "F") :
    get_deep_luck bd td g = Except.ok (deepCompute b t)
      ∧ (deepCompute b t).hourly.length = 24
      ∧ (deepCompute b t).hourly.map Prod.fst = List.range 24
      ∧ (∀ p ∈ (deepCompute b t).hourly,
          calculate_daily_luck bd (hourString p.1) td g = Except.ok p.2)
      ∧ (deepCompute b t).analysis.max_score
          ∈ (deepCompute b t).hourly.map (fun p => p.2.trading_luck_score)
      ∧ (∀ s ∈ (deepCompute b t).hourly.map (fun p => p.2.trading_luck_score),
          s ≤ (deepCompute b t).analysis.max_score)
      ∧ (deepCompute b t).analysis.min_score
          ∈ (deepCompute b t).hourly.map (fun p => p.2.trading_luck_score)
      ∧ (∀ s ∈ (deepCompute b t).hourly.map (fun p => p.2.trading_luck_score),
          (deepCompute b t).analysis.min_score ≤ s) := by
  have hH : (deepCompute b t).hourly
      = (List.range 24).map (fun (h : ℕ) => ((h : ℕ), compute_result b (h : ℤ) t)) := rfl
  have hround : ∀ s ∈ (deepCompute b t).hourly.map (fun p => p.2.trading_luck_score),
      roundTo2 s = s := by
    intro s hs
    rw [hH] at hs
    obtain ⟨p, hp, rfl⟩ := List.mem_map.mp hs
    obtain ⟨h, hh, rfl⟩ := List.mem_map.mp hp
    exact roundTo2_compute_result b (h : ℤ) t
  have hSne : (deepCompute b t).hourly.map (fun p => p.2.trading_luck_score) ≠ [] := by
    rw [hH]
    intro hemp
    have := congrArg List.length hemp
    simp at this
  have hmax_eq : (deepCompute b t).analysis.max_score
      = pyMax ((deepCompute b t).hourly.map (fun p => p.2.trading_luck_score)) := by
    have hdef : (deepCompute b t).analysis.max_score
        = roundTo2 (pyMax ((deepCompute b t).hourly.map
            (fun p => p.2.trading_luck_score))) := rfl
    rw [hdef, hround _ (pyMax_mem _ hSne)]
  have hmin_eq : (deepCompute b t).analysis.min_score
      = pyMin ((deepCompute b t).hourly.map (fun p => p.2.trading_luck_score)) := by
    have hdef : (deepCompute b t).analysis.min_score
        = roundTo2 (pyMin ((deepCompute b t).hourly.map
            (fun p => p.2.trading_luck_score))) := rfl
    rw [hdef, hround _ (pyMin_mem _ hSne)]
  refine ⟨get_deep_luck_ok bd td g b t hbd htd hg, ?_, ?_, ?_, ?_, ?_, ?_, ?_⟩
  · rw [hH]; simp
  · rw [hH, List.map_map]
    have hid : (Prod.fst ∘ fun (h : ℕ) => ((h : ℕ), compute_result b (h : ℤ) t))
        = fun (h : ℕ) => h := rfl
    rw [hid]
    exact List.map_id' _
  · intro p hp
    rw [hH] at hp
    obtain ⟨h, hh, rfl⟩ := List.mem_map.mp hp
    exact calculate_ok bd (hourString h) td g b t (h : ℤ) hbd htd
      (hourString_hourOf h hh).1 (by positivity) (hourString_hourOf h hh).2 hg
  · rw [hmax_eq]; exact pyMax_mem _ hSne
  · intro s hs
    rw [hmax_eq]
    exact le_pyMax _ s hs
  · rw [hmin_eq]; exact pyMin_mem _ hSne
  · intro s hs
    rw [hmin_eq]
    exact pyMin_le _ s hs

/-- C9, instantiated at the golden birth/target dates. -/
theorem claim9_hourly_witness :
    get_deep_luck "1990-05-15" "2026-02-20" "M"
        = Except.ok (deepCompute ⟨1990, 5, 15⟩ ⟨2026, 2, 20⟩)
      ∧ (deepCompute ⟨1990, 5, 15⟩ ⟨2026, 2, 20⟩).hourly.length = 24 := by
  have h := claim9_hourly "1990-05-15" "2026-02-20" "M" ⟨1990, 5, 15⟩ ⟨2026, 2, 20⟩
    (by decide) (by decide) (Or.inl rfl)
  exact ⟨h.1, h.2.1⟩

/-- C10: the output depends on birth_time only through its hour component —
two birth_time strings whose pre-colon part parses to the same valid hour
0–23 give identical outputs (the minutes are never parsed or checked). -/
theorem claim10_hour_only (bd td g bt₁ bt₂ : String) (h : ℤ)
    (h1 : hourOf bt₁ = some h) (h2 : hourOf bt₂ = some h)
    (h0 : 0 ≤ h) (h23 : h ≤ 23) :
    calculate_daily_luck bd bt₁ td g = calculate_daily_luck bd bt₂ td g := by
  cases hbd : parseDate bd with
  | none => simp only [calculate_daily_luck, hbd]
  | some b =>
    cases htd : parseDate td with
    | none => simp only [calculate_daily_luck, hbd, htd]
    | some t =>
      by_cases hg : g = "M" ∨ g = "F"
      · rw [calculate_ok bd bt₁ td g b t h hbd htd h1 h0 h23 hg,
          calculate_ok bd bt₂ td g b t h hbd htd h2 h0 h23 hg]
      · rw [calculate_gender_error bd bt₁ td g b t h hbd htd h1 h0 h23 hg,
          calculate_gender_error bd bt₂ td g b t h hbd htd h2 h0 h23 hg]

/-- C10, instantiated: "14:30" and "14:xx" give identical outputs. -/
theorem claim10_hour_only_witness :
    calculate_daily_luck "1990-05-15" "14:30" "2026-02-20" "M"
      = calculate_daily_luck "1990-05-15" "14:xx" "2026-02-20" "M" :=
  claim10_hour_only "1990-05-15" "2026-02-20" "M" "14:30" "14:xx" 14
    (by decide) (by decide) (by decide) (by decide)

end Gridcore
